import Mathlib

/-!
Verification development for a RAG (retrieval-augmented generation)
question-answering service.  The definitions below are a shallow embedding of
the repository's Python sources:

* `backend/retrieval/planner.py`   — keyword-based collection planner
* `backend/retrieval/retriever.py` — hybrid (vector + BM25) retriever
* `backend/main.py`                — FastAPI endpoints (`/chat`, `/upload`, ...)
* `app.py`                         — standalone Streamlit UI

External services (Qdrant vector store, Gemini language model, embedding
model, the rank_bm25 library) are modelled as oracle functions supplied as
parameters; their failure modes are modelled with `Option`/`Except`.
Similarity scores (Python floats) are modelled as exact rationals `Rat`;
none of the verified properties depend on floating-point rounding.
Python's `str.lower` is modelled by ASCII lowercasing (`Char.toLower`),
which agrees with it on all ASCII text.
-/

/-! ### String helpers (models of Python string primitives) -/

/-- Model of Python `str.lower()` (ASCII lowercasing, character by character). -/
def lowerStr (s : String) : String :=
  String.mk (s.data.map Char.toLower)

/-- Auxiliary substring test on character lists: does `pat` occur as a
contiguous infix of `hay`?  Model of Python's `pat in hay`. -/
def containsSub (hay pat : List Char) : Bool :=
  match hay with
  | [] => pat.isEmpty
  | c :: t => pat.isPrefixOf (c :: t) || containsSub t pat

/-- Model of Python `pat in s` (substring containment). -/
def strContains (s pat : String) : Bool :=
  containsSub s.data pat.data

/-- Model of Python `s.strip()`: drop leading and trailing whitespace. -/
def strTrim (s : String) : String :=
  String.mk (((s.data.dropWhile Char.isWhitespace).reverse.dropWhile Char.isWhitespace).reverse)

/-- Model of Python `s.lower().endswith(pat)`-style suffix tests:
`pat` is a suffix of `s`. -/
def strEndsWith (s pat : String) : Bool :=
  pat.data.isSuffixOf s.data

/-- Model of Python `s.split()`: split on runs of whitespace, discarding
empty tokens.  `cur` accumulates the current word reversed. -/
def tokenizeAux (cur : List Char) (rest : List Char) : List String :=
  match rest with
  | [] => if cur.isEmpty then [] else [String.mk cur.reverse]
  | c :: t =>
    if c.isWhitespace then
      if cur.isEmpty then tokenizeAux [] t
      else String.mk cur.reverse :: tokenizeAux [] t
    else tokenizeAux (c :: cur) t

/-- Whitespace tokenization of a string (Python `s.split()`). -/
def tokenize (s : String) : List String :=
  tokenizeAux [] s.data

/-- Concatenation of a list of strings (Python `"".join` / repeated `+=`). -/
def concatAll : List String → String
  | [] => ""
  | s :: rest => s ++ concatAll rest

/-- Model of Python `sep.join(l)`: interleave `sep` between elements. -/
def joinSep (sep : String) : List String → String
  | [] => ""
  | [s] => s
  | s :: t :: rest => s ++ sep ++ joinSep sep (t :: rest)

/-! ### Query planner (`backend/retrieval/planner.py`) -/

/-- The query planner: lowercase the question, then apply priority-ordered
substring rules, first match wins (`planner.py`, lines 1-15). -/
def planner (question : String) : List String :=
  let q := lowerStr question
  if strContains q "api" || strContains q "function" || strContains q "code" then
    ["code_docs", "research_papers"]
  else if strContains q "how" || strContains q "faq" || strContains q "help" then
    ["faq_data", "knowledge_base"]
  else
    ["research_papers", "knowledge_base"]

/-! ### Hybrid retriever (`backend/retrieval/retriever.py`) -/

/-- One scored hit returned by the vector store: the optional `"text"` entry
of its payload (`None` models a payload lacking a `"text"` key) and its raw
similarity score. -/
structure QdrantPoint where
  payloadText : Option String
  score : Rat
deriving DecidableEq

/-- The external services the retriever calls, modelled as oracles.
`llmRewrite` is the language-model rewrite call (`none` models a raised
exception); `embedQuery` is `embeddings.embed_query`; `queryPoints` is
`qdrant.query_points` applied to a collection name, a query vector and a
result limit (`none` models a raised exception); `bm25Scores` is the
rank_bm25 `BM25Okapi(...).get_scores` stage applied to the tokenized
documents and the tokenized query (`none` models a raised exception). -/
structure RetrievalEnv where
  llmRewrite : String → Option String
  embedQuery : String → List Rat
  queryPoints : String → List Rat → Nat → Option (List QdrantPoint)
  bm25Scores : List (List String) → List String → Option (List Rat)

/-- Per-collection confidence multipliers (`COLLECTION_CONFIDENCE` dict in
`retriever.py`); unknown collections default to 1 (`dict.get(c, 1.0)`). -/
def COLLECTION_CONFIDENCE (collection : String) : Rat :=
  if collection = "research_papers" then 1
  else if collection = "knowledge_base" then mkRat 8 10
  else if collection = "code_docs" then mkRat 12 10
  else if collection = "faq_data" then mkRat 7 10
  else 1

/-- Per-collection search limit (`dynamic_k` in `retriever.py`). -/
def dynamic_k (name : String) : Nat :=
  if name = "code_docs" then 5 else 3

/-- `rewrite_query` from `retriever.py`: strip the model's reply and use it
only when it is non-empty and longer than 3 characters; on failure or a too
short reply fall back to the original question.  Total (never raises). -/
def rewrite_query (llmResult : Option String) (question : String) : String :=
  match llmResult with
  | none => question
  | some content =>
    let rewritten := strTrim content
    if rewritten.isEmpty = false ∧ 3 < rewritten.length then rewritten else question

/-- `retrieve` from `retriever.py`: query one collection with the shared
vector and the per-collection limit; keep only points whose payload has a
`"text"` field, pairing the text with `score * confidence`; any exception
yields the empty list. -/
def retrieve (env : RetrievalEnv) (collection : String) (query_vector : List Rat) :
    List (String × Rat) :=
  match env.queryPoints collection query_vector (dynamic_k collection) with
  | none => []
  | some points =>
    points.filterMap fun p =>
      p.payloadText.map fun t => (t, p.score * COLLECTION_CONFIDENCE collection)

/-- Descending stable sort on the score component, the model of Python's
`l.sort(key=lambda x: x[1], reverse=True)` (Python's sort is stable, and so
is insertion sort with this tie-keeping comparison). -/
def sortDescBySnd (l : List (String × Rat)) : List (String × Rat) :=
  List.insertionSort (fun a b => b.2 ≤ a.2) l

instance : IsTotal (String × Rat) (fun a b => b.2 ≤ a.2) :=
  ⟨fun a b => le_total b.2 a.2⟩

instance : IsTrans (String × Rat) (fun a b => b.2 ≤ a.2) :=
  ⟨fun _ _ _ h1 h2 => le_trans h2 h1⟩

/-- The gathered per-collection result lists (`asyncio.gather` of the
`retrieve` tasks in `hybrid_retrieve`), all using the one shared embedding
of the rewritten query. -/
def gatherResults (env : RetrievalEnv) (rewritten : String) (selected : List String) :
    List (List (String × Rat)) :=
  selected.map fun c => retrieve env c (env.embedQuery rewritten)

/-- Vector-stage merge: concatenate the per-collection scored lists and sort
descending by confidence-weighted score (`merged.sort(...)`). -/
def mergeStage (results : List (List (String × Rat))) : List (String × Rat) :=
  sortDescBySnd results.flatten

/-- Vector-stage output: top 15 of the merged sort, scores discarded
(`top_vector_docs` in `hybrid_retrieve`). -/
def vectorStage (results : List (List (String × Rat))) : List String :=
  ((mergeStage results).take 15).map Prod.fst

/-- Lexical-stage output on success: zip documents with their BM25 scores,
sort descending by score, return the top 10 texts. -/
def lexStage (docs : List String) (scores : List Rat) : List String :=
  ((sortDescBySnd (docs.zip scores)).take 10).map Prod.fst

/-- Steps 2-5 of `hybrid_retrieve` (everything after the query rewrite),
parameterized by the effective (possibly rewritten) query. -/
def hybrid_core (env : RetrievalEnv) (rewritten : String) (selected : List String) :
    List String :=
  let merged := (gatherResults env rewritten selected).flatten
  if merged.isEmpty then []
  else
    let top_vector_docs := vectorStage (gatherResults env rewritten selected)
    if top_vector_docs.length < 2 then top_vector_docs
    else
      match env.bm25Scores (top_vector_docs.map tokenize) (tokenize rewritten) with
      | some scores => lexStage top_vector_docs scores
      | none => top_vector_docs.take 10

/-- `hybrid_retrieve` from `retriever.py`: rewrite the query, then run the
vector and lexical stages on the rewritten query. -/
def hybrid_retrieve (env : RetrievalEnv) (query : String) (selected : List String) :
    List String :=
  hybrid_core env (rewrite_query (env.llmRewrite query) query) selected

/-! ### Response cache and chat memory

The repository imports `cache/cache.py` and `memory/memory.py` in
`backend/main.py`, but those two modules are not among the available source
files; they are modelled from the specification. -/

/-- Modelled from the spec: `cache/cache.py` is not among the source files.
`response_cache` is a process-wide mapping from the exact question string to
the full answer string; lookup is exact string equality.  Modelled as an
association list. -/
def cacheGet (cache : List (String × String)) (q : String) : Option String :=
  (cache.find? fun kv => kv.1 == q).map fun kv => kv.2

/-- Modelled from the spec: `cache/cache.py` is not among the source files.
`response_cache[q] = a` stores/overwrites the entry for exactly the key `q`;
modelled by prepending, so the newest write shadows older entries under
`cacheGet` (observationally the same as overwriting in place). -/
def cacheSet (cache : List (String × String)) (q a : String) : List (String × String) :=
  (q, a) :: cache

/-- A chat-memory store: a mapping from session identifier to the ordered
transcript of (question, answer) turns, modelled as an association list. -/
abbrev MemoryStore : Type := List (String × List (String × String))

/-- Modelled from the spec: `memory/memory.py` is not among the source files.
`chat_memory.update(session_id, question, answer)` appends one turn to that
session's transcript, creating the session if absent. -/
def memUpdate (memory : MemoryStore) (sid q a : String) : MemoryStore :=
  if memory.any fun s => s.1 == sid then
    memory.map fun s => if s.1 == sid then (s.1, s.2 ++ [(q, a)]) else s
  else memory ++ [(sid, [(q, a)])]

/-- Modelled from the spec: `memory/memory.py` is not among the source files.
`chat_memory.format_history(session_id)` renders the session transcript as
plain text, empty for an absent or empty session. -/
def formatHistory (memory : MemoryStore) (sid : String) : String :=
  match memory.find? fun s => s.1 == sid with
  | none => ""
  | some s => concatAll (s.2.map fun t => "User: " ++ t.1 ++ "\nAssistant: " ++ t.2 ++ "\n")

/-! ### The `/chat` endpoint (`backend/main.py`, `chat`) -/

/-- A `/chat` request body (`ChatRequest` pydantic model): the raw question
and the session identifier (the pydantic default is `"default"`). -/
structure ChatRequest where
  question : String
  session_id : String

/-- The outcome of one run of the language model's token stream, as consumed
by the `generate` loop: the `chunk.content` values delivered (in order)
before the stream either completed or raised, and the mid-stream error, if
one was raised (`none` means the stream completed normally). -/
structure StreamSpec where
  chunks : List String
  streamError : Option String

/-- The bracketed error note the `/chat` handler appends to the visible
stream when the model errors mid-stream. -/
def errNote (e : String) : String :=
  "\n\n[Error generating response: " ++ e ++ "]"

/-- The pieces yielded to the HTTP response body: every non-empty chunk
content (the loop guards on `if chunk.content:`), followed by the bracketed
error note when the model raised mid-stream. -/
def streamPieces (s : StreamSpec) : List String :=
  (s.chunks.filter fun c => !c.isEmpty) ++
    (match s.streamError with
     | some e => [errNote e]
     | none => [])

/-- `full_response` as accumulated by the `generate` loop: the concatenation
of everything yielded, the error note included. -/
def fullResponse (s : StreamSpec) : String :=
  concatAll (streamPieces s)

/-- The process-wide mutable state the `/chat` handler reads and writes:
the response cache and the chat memory. -/
structure ServerState where
  cache : List (String × String)
  memory : MemoryStore

/-- The result returned to the `/chat` caller: a 400 error for a blank
question, a non-streaming cache hit (tagged `cached: true` in the JSON), or
the streamed list of body pieces. -/
inductive ChatResult where
  | badRequest : ChatResult
  | cachedAnswer : String → ChatResult
  | streamedAnswer : List String → ChatResult
deriving DecidableEq

/-- The fixed prose instruction block plus memory, context and question, as
assembled by the `/chat` handler's f-string. -/
def promptTemplate (memory context question : String) : String :=
  "Use the following system instructions to answer the user query:\n" ++
  "1. Answer questions in clear, concise, flowing prose — like a knowledgeable expert speaking naturally.\n" ++
  "2. Never use markdown headers (##, ###), bullet points, bold text, or numbered lists unless the user explicitly asks for them.\n" ++
  "3. Never include executive summaries, technical deep-dives, or section labels.\n" ++
  "4. Do not expose internal source labels, figure references like [Figure 1], or citation numbers like [10] to the user.\n" ++
  "5. Synthesize retrieved information into a single coherent paragraph or two. Do not dump document structure.\n" ++
  "6. Keep answers concise and direct. Avoid redundancy and over-explanation.\n" ++
  "\nPrevious Conversation:\n" ++ memory ++
  "\n\nRetrieved Information Context:\n" ++ context ++
  "\n\nUser Question:\n" ++ question ++ "\n"

/-- The prompt the `/chat` miss path hands to the language model: planner,
hybrid retrieval, context assembly (with the literal fallback text when no
document was retrieved), formatted session memory. -/
def promptOf (env : RetrievalEnv) (st : ServerState) (req : ChatRequest) : String :=
  let question := strTrim req.question
  let docs := hybrid_retrieve env question (planner question)
  let context := if docs.isEmpty then "No relevant documents found." else joinSep "\n\n" docs
  promptTemplate (formatHistory st.memory req.session_id) context question

/-- The `/chat` handler (`backend/main.py`, lines 142-205).  The question is
stripped; a blank question is a 400; a cache hit returns the cached answer
immediately with no further work; otherwise the prompt is assembled, the
model is streamed (`oracle` maps the prompt to the stream outcome), and in
the stream's `finally` block memory and cache are updated with the stripped
question and the accumulated `full_response` — only when `full_response` is
non-empty. -/
def chat (env : RetrievalEnv) (oracle : String → StreamSpec) (st : ServerState)
    (req : ChatRequest) : ChatResult × ServerState :=
  let question := strTrim req.question
  if question = "" then (ChatResult.badRequest, st)
  else
    match cacheGet st.cache question with
    | some answer => (ChatResult.cachedAnswer answer, st)
    | none =>
      let s := oracle (promptOf env st req)
      let full := fullResponse s
      if full = "" then (ChatResult.streamedAnswer (streamPieces s), st)
      else
        (ChatResult.streamedAnswer (streamPieces s),
         ServerState.mk (cacheSet st.cache question full)
           (memUpdate st.memory req.session_id question full))

/-! ### The `/upload` endpoint (`backend/main.py`, `upload_pdf`) -/

/-- The `/upload` endpoint's HTTP outcome: a 400 rejection for a non-PDF
filename, a success response carrying the ingested chunk count and message,
or a 500 wrapping an ingestion failure. -/
inductive UploadResult where
  | badRequest : UploadResult
  | ok : Nat → String → UploadResult
  | serverError : String → UploadResult
deriving DecidableEq

/-- Observable side effects of one `/upload` request: whether the temporary
staging directory was created and written, whether ingestion (and hence any
embedding call, which only `ingest_pdf` performs) was attempted, and whether
the temporary directory was removed by the `finally` cleanup. -/
structure UploadEffects where
  tempWritten : Bool
  ingestAttempted : Bool
  tempCleaned : Bool
deriving DecidableEq

/-- The `/upload` handler (`backend/main.py`, lines 108-139).  The filename
extension check runs before the temporary directory is created; afterwards
the staging write and `ingest_pdf` run inside `try`, any exception becomes a
500 `"Ingestion failed: ..."`, and the `finally` block always removes the
temporary directory.  `ingestResult` is the oracle for the staged write plus
`ingest_pdf` call (`Except.error` models any exception raised there). -/
def upload_pdf (filename : String) (ingestResult : Except String Nat) :
    UploadResult × UploadEffects :=
  if strEndsWith (lowerStr filename) ".pdf" = false then
    (UploadResult.badRequest, UploadEffects.mk false false false)
  else
    match ingestResult with
    | Except.ok n =>
      (UploadResult.ok n ("Successfully ingested " ++ Nat.repr n ++ " chunks from " ++ filename),
       UploadEffects.mk true true true)
    | Except.error e =>
      (UploadResult.serverError ("Ingestion failed: " ++ e), UploadEffects.mk true true true)

/-! ### The standalone UI's answering function (`app.py`, `ask_question`) -/

/-- Observable side effects of one `ask_question` call in the standalone UI:
whether the local similarity search ran and whether the language model was
invoked. -/
structure UIEffects where
  retrievalInvoked : Bool
  llmInvoked : Bool
deriving DecidableEq

/-- The fixed message `ask_question` returns when no credential is set. -/
def notConfiguredMsg : String :=
  "⚠️ API key not configured. Please add GEMINI_API_KEY to your .env file."

/-- The fixed single-shot prompt `ask_question` assembles. -/
def uiPrompt (context question : String) : String :=
  "You are a helpful assistant. Answer the question based on the context below. If you don't know, say so clearly.\n" ++
  "\nContext: " ++ context ++
  "\n\nQuestion: " ++ question ++
  "\n\nAnswer:"

/-- `ask_question` from `app.py` (lines 153-185).  `apiKey` models the
module-level `os.getenv("GEMINI_API_KEY")` (absent or empty is falsy);
`search` models the session vector store's top-K similarity retriever;
`llmInvoke` models the single-shot Gemini call at the user's temperature
(`Except.error` models a raised exception, caught and rendered).  When no
credential is configured the fixed message is returned before any retrieval
or model call. -/
def ask_question (apiKey : Option String) (question : String)
    (search : String → Nat → List String) (temperature : Rat) (max_results : Nat)
    (llmInvoke : String → Rat → Except String String) : String × UIEffects :=
  if apiKey.getD "" = "" then (notConfiguredMsg, UIEffects.mk false false)
  else
    let docs := search question max_results
    let context := joinSep "\n\n" docs
    let prompt := uiPrompt context question
    match llmInvoke prompt temperature with
    | Except.ok content => (content, UIEffects.mk true true)
    | Except.error e => ("⚠️ Error: " ++ e, UIEffects.mk true true)

/-! ### Concrete fixtures used by the witness theorems -/

/-- A retrieval environment in which every external call fails. -/
def envEmpty : RetrievalEnv :=
  RetrievalEnv.mk (fun _ => none) (fun _ => []) (fun _ _ _ => none) (fun _ _ => none)

/-- A retrieval environment whose vector store returns a single point. -/
def envOne : RetrievalEnv :=
  RetrievalEnv.mk (fun _ => none) (fun _ => [])
    (fun _ _ _ => some [QdrantPoint.mk (some "docA") 3]) (fun _ _ => none)

/-- A retrieval environment whose vector store returns two points and whose
BM25 stage fails. -/
def envTwo : RetrievalEnv :=
  RetrievalEnv.mk (fun _ => none) (fun _ => [])
    (fun _ _ _ => some [QdrantPoint.mk (some "docA") 3, QdrantPoint.mk (some "docB") 1])
    (fun _ _ => none)

/-- A stream oracle that always yields one chunk and completes. -/
def oracleA : String → StreamSpec := fun _ => StreamSpec.mk ["ans"] none

/-- A second stream oracle, yielding different output than `oracleA`. -/
def oracleB : String → StreamSpec := fun _ => StreamSpec.mk ["other"] none

/-- A stream oracle that yields one chunk, then raises mid-stream. -/
def oracleErr : String → StreamSpec := fun _ => StreamSpec.mk ["part", ""] (some "boom")

/-- The empty server state (fresh cache and memory). -/
def st0 : ServerState := ServerState.mk [] []

/-- A concrete `/chat` request. -/
def req0 : ChatRequest := ChatRequest.mk "q" "default"

/-! ## Theorems -/

/-- C1: the planner is a pure deterministic function of the question text (it
is a Lean function of the string alone); it lowercases the question and
applies priority-ordered substring rules, first match wins: a question
containing "api", "function" or "code" (after lowercasing) maps to
`["code_docs", "research_papers"]`; otherwise one containing "how", "faq" or
"help" maps to `["faq_data", "knowledge_base"]`; otherwise the default
`["research_papers", "knowledge_base"]` is returned.  In particular a
question containing both "api" and "how" takes the first rule. -/
theorem planner_keyword_priority (question : String) :
    (strContains (lowerStr question) "api" = true ∨
     strContains (lowerStr question) "function" = true ∨
     strContains (lowerStr question) "code" = true →
       planner question = ["code_docs", "research_papers"]) ∧
    (strContains (lowerStr question) "api" = false →
     strContains (lowerStr question) "function" = false →
     strContains (lowerStr question) "code" = false →
     (strContains (lowerStr question) "how" = true ∨
      strContains (lowerStr question) "faq" = true ∨
      strContains (lowerStr question) "help" = true) →
       planner question = ["faq_data", "knowledge_base"]) ∧
    (strContains (lowerStr question) "api" = false →
     strContains (lowerStr question) "function" = false →
     strContains (lowerStr question) "code" = false →
     strContains (lowerStr question) "how" = false →
     strContains (lowerStr question) "faq" = false →
     strContains (lowerStr question) "help" = false →
       planner question = ["research_papers", "knowledge_base"]) ∧
    (strContains (lowerStr question) "api" = true ∧
     strContains (lowerStr question) "how" = true →
       planner question = ["code_docs", "research_papers"]) := by
  refine ⟨?_, ?_, ?_, ?_⟩
  · rintro (h | h | h) <;> simp [planner, h]
  · intro h1 h2 h3 h4
    rcases h4 with h | h | h <;> simp [planner, h1, h2, h3, h]
  · intro h1 h2 h3 h4 h5 h6
    simp [planner, h1, h2, h3, h4, h5, h6]
  · rintro ⟨h, -⟩
    simp [planner, h]

/-- Witness for C1: a question containing both "API" and "How" (any case) is
routed by the first rule. -/
theorem planner_keyword_priority_witness :
    planner "How do I call this API?" = ["code_docs", "research_papers"] :=
  (planner_keyword_priority "How do I call this API?").2.2.2 ⟨by decide, by decide⟩

/-- C5: the query-rewrite step never raises (it is a total function here):
when the language-model call fails (`none`) or the stripped reply is empty
or at most 3 characters long, `rewrite_query` returns the original question
unchanged, and in that case `hybrid_retrieve` coincides with `hybrid_core`
applied to the original question — so the original question is the query
used both for the single embedding (`env.embedQuery`) and for BM25 lexical
scoring (`tokenize rewritten`) inside `hybrid_core`. -/
theorem rewrite_query_fallback :
    (∀ question : String, rewrite_query none question = question) ∧
    (∀ content question : String, (strTrim content).length ≤ 3 →
        rewrite_query (some content) question = question) ∧
    (∀ (env : RetrievalEnv) (question : String) (selected : List String),
        (env.llmRewrite question = none ∨
          ∃ content, env.llmRewrite question = some content ∧ (strTrim content).length ≤ 3) →
        hybrid_retrieve env question selected = hybrid_core env question selected) := by
  have h2 : ∀ content question : String, (strTrim content).length ≤ 3 →
      rewrite_query (some content) question = question := by
    intro content question h
    have hcond : ¬((strTrim content).isEmpty = false ∧ 3 < (strTrim content).length) := by
      rintro ⟨-, hlen⟩
      omega
    simp only [rewrite_query]
    rw [if_neg hcond]
  refine ⟨fun _ => rfl, h2, ?_⟩
  rintro env question selected (h | ⟨content, hc, hlen⟩)
  · simp [hybrid_retrieve, h, rewrite_query]
  · simp only [hybrid_retrieve, hc]
    rw [h2 content question hlen]

/-- Witness for C5: a reply whose stripped form has 2 characters falls back
to the original question. -/
theorem rewrite_query_fallback_witness :
    rewrite_query (some " ab ") "original question" = "original question" :=
  rewrite_query_fallback.2.1 " ab " "original question" (by decide)

/-- C3: for every list of per-collection scored result lists, the vector
stage is the concatenation of all per-collection results
(`(mergeStage results).Perm results.flatten`), sorted descending by the
confidence-weighted score (`List.Sorted`), truncated to at most 15 documents
with the scores discarded (`take 15`, `map Prod.fst`, length bound); and
whenever the truncated set has fewer than 2 documents, `hybrid_core` returns
it verbatim without attempting lexical re-ranking. -/
theorem vector_stage_merge_and_truncate :
    (∀ results : List (List (String × Rat)),
        (mergeStage results).Perm results.flatten ∧
        List.Sorted (fun a b : String × Rat => b.2 ≤ a.2) (mergeStage results) ∧
        vectorStage results = ((mergeStage results).take 15).map Prod.fst ∧
        (vectorStage results).length ≤ 15) ∧
    (∀ (env : RetrievalEnv) (rewritten : String) (selected : List String),
        (vectorStage (gatherResults env rewritten selected)).length < 2 →
        hybrid_core env rewritten selected = vectorStage (gatherResults env rewritten selected)) := by
  constructor
  · intro results
    refine ⟨List.perm_insertionSort _ _, List.sorted_insertionSort _ _, rfl, ?_⟩
    simp only [vectorStage, List.length_map, List.length_take]
    omega
  · intro env rewritten selected h
    by_cases hm : ((gatherResults env rewritten selected).flatten).isEmpty
    · have hnil : (gatherResults env rewritten selected).flatten = [] := by
        simpa [List.isEmpty_iff] using hm
      simp [hybrid_core, hm, vectorStage, mergeStage, hnil, sortDescBySnd, List.insertionSort]
    · simp [hybrid_core, hm, h]

/-- Witness for C3: with a single retrieved document the retriever returns
the vector-stage output verbatim, skipping the lexical stage. -/
theorem vector_stage_merge_and_truncate_witness :
    hybrid_core envOne "q" ["research_papers"] =
      vectorStage (gatherResults envOne "q" ["research_papers"]) :=
  vector_stage_merge_and_truncate.2 envOne "q" ["research_papers"] (by decide)

/-- C4: with at least 2 vector-stage candidates, the lexical stage hands the
whitespace-tokenized candidates and the whitespace-tokenized rewritten query
to BM25 and, on success, returns the top 10 texts of the candidates sorted
descending by lexical score; if the BM25 stage fails, `hybrid_core` falls
back to the first 10 vector-stage candidates in vector order; and the final
output of `hybrid_retrieve` never exceeds 10 documents. -/
theorem lexical_rerank_and_fallback :
    (∀ (env : RetrievalEnv) (query : String) (selected : List String),
        (hybrid_retrieve env query selected).length ≤ 10) ∧
    (∀ (env : RetrievalEnv) (rewritten : String) (selected : List String),
        2 ≤ (vectorStage (gatherResults env rewritten selected)).length →
        env.bm25Scores ((vectorStage (gatherResults env rewritten selected)).map tokenize)
            (tokenize rewritten) = none →
        hybrid_core env rewritten selected =
          (vectorStage (gatherResults env rewritten selected)).take 10) ∧
    (∀ (env : RetrievalEnv) (rewritten : String) (selected : List String)
        (scores : List Rat),
        2 ≤ (vectorStage (gatherResults env rewritten selected)).length →
        env.bm25Scores ((vectorStage (gatherResults env rewritten selected)).map tokenize)
            (tokenize rewritten) = some scores →
        hybrid_core env rewritten selected =
          lexStage (vectorStage (gatherResults env rewritten selected)) scores) ∧
    (∀ (docs : List String) (scores : List Rat),
        List.Sorted (fun a b : String × Rat => b.2 ≤ a.2) (sortDescBySnd (docs.zip scores)) ∧
        (sortDescBySnd (docs.zip scores)).Perm (docs.zip scores) ∧
        lexStage docs scores = ((sortDescBySnd (docs.zip scores)).take 10).map Prod.fst ∧
        (lexStage docs scores).length ≤ 10) := by
  have hnonempty : ∀ (env : RetrievalEnv) (rewritten : String) (selected : List String),
      2 ≤ (vectorStage (gatherResults env rewritten selected)).length →
      ((gatherResults env rewritten selected).flatten).isEmpty = false := by
    intro env rewritten selected h2
    by_contra hm
    have hm2 : ((gatherResults env rewritten selected).flatten).isEmpty = true := by
      revert hm
      cases ((gatherResults env rewritten selected).flatten).isEmpty <;> simp
    have hnil : (gatherResults env rewritten selected).flatten = [] := by
      simpa [List.isEmpty_iff] using hm2
    rw [vectorStage, mergeStage, hnil] at h2
    simp [sortDescBySnd, List.insertionSort] at h2
  refine ⟨?_, ?_, ?_, ?_⟩
  · intro env query selected
    show (hybrid_core env _ selected).length ≤ 10
    generalize rewrite_query (env.llmRewrite query) query = rewritten
    by_cases hm : ((gatherResults env rewritten selected).flatten).isEmpty
    · simp [hybrid_core, hm]
    · by_cases hl : (vectorStage (gatherResults env rewritten selected)).length < 2
      · simp only [hybrid_core, hm, Bool.false_eq_true, if_false, hl, if_true]
        omega
      · cases hbm : env.bm25Scores
            ((vectorStage (gatherResults env rewritten selected)).map tokenize)
            (tokenize rewritten) with
        | none =>
          simp only [hybrid_core, hm, Bool.false_eq_true, if_false, hl, hbm]
          simp only [List.length_take]
          omega
        | some scores =>
          simp only [hybrid_core, hm, Bool.false_eq_true, if_false, hl, hbm]
          simp only [lexStage, List.length_map, List.length_take]
          omega
  · intro env rewritten selected h2 hbm
    have hm := hnonempty env rewritten selected h2
    have hl : ¬(vectorStage (gatherResults env rewritten selected)).length < 2 := by omega
    simp only [hybrid_core, hm, Bool.false_eq_true, if_false, hl, hbm]
  · intro env rewritten selected scores h2 hbm
    have hm := hnonempty env rewritten selected h2
    have hl : ¬(vectorStage (gatherResults env rewritten selected)).length < 2 := by omega
    simp only [hybrid_core, hm, Bool.false_eq_true, if_false, hl, hbm]
  · intro docs scores
    refine ⟨List.sorted_insertionSort _ _, List.perm_insertionSort _ _, rfl, ?_⟩
    simp only [lexStage, List.length_map, List.length_take]
    omega

/-- Witness for C4: with two vector-stage candidates and a failing BM25
stage, the retriever falls back to the first 10 vector-stage candidates. -/
theorem lexical_rerank_and_fallback_witness :
    hybrid_core envTwo "q" ["research_papers"] =
      (vectorStage (gatherResults envTwo "q" ["research_papers"])).take 10 := by
  have h1 : (gatherResults envTwo "q" ["research_papers"]).flatten.length = 2 := by
    simp [gatherResults, retrieve, envTwo, dynamic_k]
  have hlen : (vectorStage (gatherResults envTwo "q" ["research_papers"])).length = 2 := by
    simp only [vectorStage, mergeStage, sortDescBySnd, List.length_map, List.length_take,
      List.length_insertionSort, h1]
    omega
  exact lexical_rerank_and_fallback.2.1 envTwo "q" ["research_papers"] (by omega) rfl

/-- C6: the single-collection retrieval queries the store with the
per-collection limit `dynamic_k` (5 for `code_docs`, 3 otherwise), pairs
each returned text with its raw score multiplied by the collection's fixed
confidence multiplier (`research_papers` 1, `knowledge_base` 8/10,
`code_docs` 12/10, `faq_data` 7/10), returns the empty list when the query
raises, and a failing collection contributes nothing to the merged results
of its siblings. -/
theorem retrieve_contract :
    (∀ (env : RetrievalEnv) (collection : String) (v : List Rat),
        env.queryPoints collection v (dynamic_k collection) = none →
        retrieve env collection v = []) ∧
    (∀ (env : RetrievalEnv) (collection : String) (v : List Rat)
        (points : List QdrantPoint),
        env.queryPoints collection v (dynamic_k collection) = some points →
        retrieve env collection v =
          points.filterMap fun p =>
            p.payloadText.map fun t => (t, p.score * COLLECTION_CONFIDENCE collection)) ∧
    (dynamic_k "code_docs" = 5 ∧
      ∀ collection, collection ≠ "code_docs" → dynamic_k collection = 3) ∧
    (COLLECTION_CONFIDENCE "research_papers" = 1 ∧
     COLLECTION_CONFIDENCE "knowledge_base" = mkRat 8 10 ∧
     COLLECTION_CONFIDENCE "code_docs" = mkRat 12 10 ∧
     COLLECTION_CONFIDENCE "faq_data" = mkRat 7 10) ∧
    (∀ (env : RetrievalEnv) (rewritten collection : String) (rest : List String),
        env.queryPoints collection (env.embedQuery rewritten) (dynamic_k collection) = none →
        (gatherResults env rewritten (collection :: rest)).flatten =
          (gatherResults env rewritten rest).flatten) := by
  refine ⟨?_, ?_, ⟨rfl, ?_⟩, by decide, ?_⟩
  · intro env collection v h
    simp [retrieve, h]
  · intro env collection v points h
    simp [retrieve, h]
  · intro collection hc
    simp [dynamic_k, hc]
  · intro env rewritten collection rest h
    simp [gatherResults, retrieve, h]

/-- Witness for C6: a failing `code_docs` query yields the empty list. -/
theorem retrieve_contract_witness :
    retrieve envEmpty "code_docs" [] = [] :=
  retrieve_contract.1 envEmpty "code_docs" [] rfl

/-- Looking up the key just stored finds the stored answer. -/
theorem cacheGet_set_self (cache : List (String × String)) (q a : String) :
    cacheGet (cacheSet cache q a) q = some a := by
  simp [cacheGet, cacheSet, List.find?]

/-- Storing under one key does not change lookups of any other key. -/
theorem cacheGet_set_ne (cache : List (String × String)) (q a q2 : String) (h : q2 ≠ q) :
    cacheGet (cacheSet cache q a) q2 = cacheGet cache q2 := by
  have hq : (q == q2) = false := by
    simp only [beq_eq_false_iff_ne, ne_eq]
    intro e
    exact h e.symm
  simp [cacheGet, cacheSet, List.find?, hq]

/-- A blank (all-whitespace) question is rejected with a 400 and the state
is unchanged. -/
theorem chat_blank (env : RetrievalEnv) (oracle : String → StreamSpec) (st : ServerState)
    (req : ChatRequest) (hq : strTrim req.question = "") :
    chat env oracle st req = (ChatResult.badRequest, st) := by
  simp [chat, hq]

/-- A cache hit returns the cached answer with the state unchanged. -/
theorem chat_hit (env : RetrievalEnv) (oracle : String → StreamSpec) (st : ServerState)
    (req : ChatRequest) (answer : String) (hq : strTrim req.question ≠ "")
    (h : cacheGet st.cache (strTrim req.question) = some answer) :
    chat env oracle st req = (ChatResult.cachedAnswer answer, st) := by
  simp [chat, hq, h]

/-- A cache miss producing no output streams the pieces and leaves the state
unchanged. -/
theorem chat_miss_skip (env : RetrievalEnv) (oracle : String → StreamSpec) (st : ServerState)
    (req : ChatRequest) (hq : strTrim req.question ≠ "")
    (hc : cacheGet st.cache (strTrim req.question) = none)
    (hf : fullResponse (oracle (promptOf env st req)) = "") :
    chat env oracle st req =
      (ChatResult.streamedAnswer (streamPieces (oracle (promptOf env st req))), st) := by
  simp [chat, hq, hc, hf]

/-- A cache miss producing output streams the pieces and commits the
(stripped question, full response) pair to cache and memory. -/
theorem chat_miss_commit (env : RetrievalEnv) (oracle : String → StreamSpec) (st : ServerState)
    (req : ChatRequest) (hq : strTrim req.question ≠ "")
    (hc : cacheGet st.cache (strTrim req.question) = none)
    (hf : fullResponse (oracle (promptOf env st req)) ≠ "") :
    chat env oracle st req =
      (ChatResult.streamedAnswer (streamPieces (oracle (promptOf env st req))),
       ServerState.mk
         (cacheSet st.cache (strTrim req.question) (fullResponse (oracle (promptOf env st req))))
         (memUpdate st.memory req.session_id (strTrim req.question)
           (fullResponse (oracle (promptOf env st req))))) := by
  simp [chat, hq, hc, hf]

/-- The empty string is a left identity for string append. -/
theorem str_empty_append (s : String) : "" ++ s = s := by
  cases s
  rfl

/-- The empty string is a right identity for string append. -/
theorem str_append_empty (s : String) : s ++ "" = s := by
  cases s with
  | mk data =>
    show String.mk (data ++ []) = String.mk data
    rw [List.append_nil]

/-- String append is associative. -/
theorem str_append_assoc (a b c : String) : a ++ b ++ c = a ++ (b ++ c) := by
  cases a with
  | mk x =>
    cases b with
    | mk y =>
      cases c with
      | mk z =>
        show String.mk (x ++ y ++ z) = String.mk (x ++ (y ++ z))
        rw [List.append_assoc]

/-- Appending a non-empty string yields a non-empty string. -/
theorem str_append_ne_empty (a b : String) (h : b ≠ "") : a ++ b ≠ "" := by
  intro e
  apply h
  have hd := congrArg String.data e
  rw [String.data_append] at hd
  have hb : b.data = [] := (List.append_eq_nil.mp hd).2
  cases b with
  | mk data =>
    have hdata : data = [] := hb
    subst hdata
    rfl

/-- `concatAll` distributes over list append. -/
theorem concatAll_append (a b : List String) :
    concatAll (a ++ b) = concatAll a ++ concatAll b := by
  induction a with
  | nil => simp [concatAll, str_empty_append]
  | cons s rest ih => simp [concatAll, ih, str_append_assoc]

/-- The bracketed mid-stream error note is never the empty string. -/
theorem errNote_ne_empty (e : String) : errNote e ≠ "" :=
  str_append_ne_empty _ _ (by decide)

/-- C2 counterexample: the claim that the cache never hits across two
question strings that differ only in surrounding whitespace is false — the
handler strips the question before the cache check, so completing an answer
for `"hi"` makes the distinct string `" hi"` a cache hit (even under a
stream oracle that would have produced a different answer). -/
theorem cache_exact_key_counterexample :
    "hi" ≠ " hi" ∧
    (chat envEmpty oracleB (chat envEmpty oracleA st0 (ChatRequest.mk "hi" "default")).2
        (ChatRequest.mk " hi" "default")).1 = ChatResult.cachedAnswer "ans" :=
  ⟨by decide, by decide⟩

/-- C2 amended: the `/chat` cache is keyed by the whitespace-trimmed question
string (no case-folding, no other normalization): answering one question
never creates or changes the entry of any differently-trimmed key; a
question whose trimmed form is cached is answered from the cache with the
state unchanged and independently of the stream oracle (no planning,
retrieval or generation); and after a completed non-empty answer, any
question with the same trimmed form — the identical string included — is
answered from the cache with that answer. -/
theorem cache_keyed_by_trimmed_question :
    (∀ (env : RetrievalEnv) (oracle : String → StreamSpec) (st : ServerState)
        (req : ChatRequest) (q2 : String),
        strTrim q2 ≠ strTrim req.question →
        cacheGet (chat env oracle st req).2.cache (strTrim q2) =
          cacheGet st.cache (strTrim q2)) ∧
    (∀ (env : RetrievalEnv) (oracle oracle2 : String → StreamSpec) (st : ServerState)
        (req : ChatRequest) (answer : String),
        strTrim req.question ≠ "" →
        cacheGet st.cache (strTrim req.question) = some answer →
        chat env oracle st req = (ChatResult.cachedAnswer answer, st) ∧
        chat env oracle st req = chat env oracle2 st req) ∧
    (∀ (env : RetrievalEnv) (oracle : String → StreamSpec) (st : ServerState)
        (req : ChatRequest),
        strTrim req.question ≠ "" →
        cacheGet st.cache (strTrim req.question) = none →
        fullResponse (oracle (promptOf env st req)) ≠ "" →
        cacheGet (chat env oracle st req).2.cache (strTrim req.question) =
          some (fullResponse (oracle (promptOf env st req))) ∧
        ∀ (oracle2 : String → StreamSpec) (req2 : ChatRequest),
          strTrim req2.question = strTrim req.question →
          (chat env oracle2 (chat env oracle st req).2 req2).1 =
            ChatResult.cachedAnswer (fullResponse (oracle (promptOf env st req)))) := by
  refine ⟨?_, ?_, ?_⟩
  · intro env oracle st req q2 h
    by_cases hq : strTrim req.question = ""
    · rw [chat_blank env oracle st req hq]
    · cases hc : cacheGet st.cache (strTrim req.question) with
      | some answer => rw [chat_hit env oracle st req answer hq hc]
      | none =>
        by_cases hf : fullResponse (oracle (promptOf env st req)) = ""
        · rw [chat_miss_skip env oracle st req hq hc hf]
        · rw [chat_miss_commit env oracle st req hq hc hf]
          exact cacheGet_set_ne _ _ _ _ h
  · intro env oracle oracle2 st req answer hq hc
    rw [chat_hit env oracle st req answer hq hc, chat_hit env oracle2 st req answer hq hc]
    exact ⟨rfl, rfl⟩
  · intro env oracle st req hq hc hf
    have hcache : cacheGet (chat env oracle st req).2.cache (strTrim req.question) =
        some (fullResponse (oracle (promptOf env st req))) := by
      rw [chat_miss_commit env oracle st req hq hc hf]
      exact cacheGet_set_self _ _ _
    refine ⟨hcache, ?_⟩
    intro oracle2 req2 he
    have hq2 : strTrim req2.question ≠ "" := by
      rw [he]
      exact hq
    have hcache2 : cacheGet (chat env oracle st req).2.cache (strTrim req2.question) =
        some (fullResponse (oracle (promptOf env st req))) := by
      rw [he]
      exact hcache
    rw [chat_hit env oracle2 (chat env oracle st req).2 req2
      (fullResponse (oracle (promptOf env st req))) hq2 hcache2]

/-- Witness for C2 (amended): a cached question is answered from the cache
with the state unchanged. -/
theorem cache_keyed_by_trimmed_question_witness :
    chat envEmpty oracleA (ServerState.mk [("q", "a")] []) req0 =
      (ChatResult.cachedAnswer "a", ServerState.mk [("q", "a")] []) :=
  (cache_keyed_by_trimmed_question.2.1 envEmpty oracleA oracleB
    (ServerState.mk [("q", "a")] []) req0 "a" (by decide) rfl).1

/-- C7: on the `/chat` cache-miss path, memory and cache are updated with the
(stripped question, full concatenated answer) pair exactly when the
accumulated output is non-empty — `full_response` is the concatenation of
the entire exhausted stream, so the commit reflects the whole stream; the
update is skipped entirely (state unchanged) when the model produced no
output; and when the model errors mid-stream the bracketed error note is
appended to the visible stream, is part of the committed answer, and makes
the accumulated output non-empty, so the partial exchange is committed. -/
theorem post_stream_commit :
    ∀ (env : RetrievalEnv) (oracle : String → StreamSpec) (st : ServerState)
      (req : ChatRequest),
      strTrim req.question ≠ "" →
      cacheGet st.cache (strTrim req.question) = none →
      (fullResponse (oracle (promptOf env st req)) = "" →
        (chat env oracle st req).2 = st) ∧
      (fullResponse (oracle (promptOf env st req)) ≠ "" →
        (chat env oracle st req).2 =
          ServerState.mk
            (cacheSet st.cache (strTrim req.question)
              (fullResponse (oracle (promptOf env st req))))
            (memUpdate st.memory req.session_id (strTrim req.question)
              (fullResponse (oracle (promptOf env st req))))) ∧
      (∀ e, (oracle (promptOf env st req)).streamError = some e →
        streamPieces (oracle (promptOf env st req)) =
          ((oracle (promptOf env st req)).chunks.filter fun c => !c.isEmpty) ++ [errNote e] ∧
        fullResponse (oracle (promptOf env st req)) =
          concatAll ((oracle (promptOf env st req)).chunks.filter fun c => !c.isEmpty) ++
            errNote e ∧
        fullResponse (oracle (promptOf env st req)) ≠ "") := by
  intro env oracle st req hq hc
  refine ⟨?_, ?_, ?_⟩
  · intro hf
    rw [chat_miss_skip env oracle st req hq hc hf]
  · intro hf
    rw [chat_miss_commit env oracle st req hq hc hf]
  · intro e he
    have hpieces : streamPieces (oracle (promptOf env st req)) =
        ((oracle (promptOf env st req)).chunks.filter fun c => !c.isEmpty) ++ [errNote e] := by
      simp [streamPieces, he]
    have hfull : fullResponse (oracle (promptOf env st req)) =
        concatAll ((oracle (promptOf env st req)).chunks.filter fun c => !c.isEmpty) ++
          errNote e := by
      rw [fullResponse, hpieces, concatAll_append]
      simp [concatAll, str_append_empty]
    refine ⟨hpieces, hfull, ?_⟩
    rw [hfull]
    exact str_append_ne_empty _ _ (errNote_ne_empty e)

/-- Witness for C7: a stream that yields "part" and then errors with "boom"
commits (question, partial output plus error note) to cache and memory. -/
theorem post_stream_commit_witness :
    (chat envEmpty oracleErr st0 req0).2 =
      ServerState.mk
        (cacheSet st0.cache (strTrim req0.question)
          (fullResponse (oracleErr (promptOf envEmpty st0 req0))))
        (memUpdate st0.memory req0.session_id (strTrim req0.question)
          (fullResponse (oracleErr (promptOf envEmpty st0 req0)))) := by
  have T := post_stream_commit envEmpty oracleErr st0 req0 (by decide) rfl
  exact T.2.1 (T.2.2 "boom" rfl).2.2

/-- C10: on the `/chat` cache-hit path the chat memory (indeed the whole
server state) is left unchanged — the cached answer is returned without
appending a turn to any session's transcript. -/
theorem cache_hit_preserves_memory (env : RetrievalEnv) (oracle : String → StreamSpec)
    (st : ServerState) (req : ChatRequest) (answer : String)
    (h : cacheGet st.cache (strTrim req.question) = some answer) :
    (chat env oracle st req).2.memory = st.memory ∧
    (chat env oracle st req).2 = st ∧
    (strTrim req.question ≠ "" →
      (chat env oracle st req).1 = ChatResult.cachedAnswer answer) := by
  by_cases hq : strTrim req.question = ""
  · rw [chat_blank env oracle st req hq]
    exact ⟨rfl, rfl, fun hne => absurd hq hne⟩
  · rw [chat_hit env oracle st req answer hq h]
    exact ⟨rfl, rfl, fun _ => rfl⟩

/-- Witness for C10: answering `"q"` from the cache leaves the (empty)
memory untouched. -/
theorem cache_hit_preserves_memory_witness :
    (chat envEmpty oracleA (ServerState.mk [("q", "a")] []) req0).2.memory = [] :=
  (cache_hit_preserves_memory envEmpty oracleA (ServerState.mk [("q", "a")] []) req0 "a"
    rfl).1

/-- C8: an upload whose filename does not end in ".pdf" (case-insensitively)
is rejected with a 400 before the temporary directory is written and before
any ingestion (and hence any embedding call) is attempted; when the filename
passes the check, the temporary directory is always cleaned up — on
ingestion success (200 with the chunk count) and on ingestion failure (500
wrapping the error) alike. -/
theorem upload_guard_and_cleanup :
    (∀ (filename : String) (ingestResult : Except String Nat),
        strEndsWith (lowerStr filename) ".pdf" = false →
        upload_pdf filename ingestResult =
          (UploadResult.badRequest, UploadEffects.mk false false false)) ∧
    (∀ (filename : String) (ingestResult : Except String Nat),
        strEndsWith (lowerStr filename) ".pdf" = true →
        (upload_pdf filename ingestResult).2 = UploadEffects.mk true true true ∧
        (∀ e, ingestResult = Except.error e →
          (upload_pdf filename ingestResult).1 =
            UploadResult.serverError ("Ingestion failed: " ++ e)) ∧
        (∀ n, ingestResult = Except.ok n →
          (upload_pdf filename ingestResult).1 =
            UploadResult.ok n
              ("Successfully ingested " ++ Nat.repr n ++ " chunks from " ++ filename))) := by
  constructor
  · intro filename ingestResult h
    simp [upload_pdf, h]
  · intro filename ingestResult h
    refine ⟨?_, ?_, ?_⟩
    · cases ingestResult <;> simp [upload_pdf, h]
    · intro e he
      subst he
      simp [upload_pdf, h]
    · intro n hn
      subst hn
      simp [upload_pdf, h]

/-- Witness for C8: "notes.txt" is rejected with no temp write and no
ingestion attempt, and "Paper.PDF" with a failing ingestion still cleans up
the temporary directory. -/
theorem upload_guard_and_cleanup_witness :
    upload_pdf "notes.txt" (Except.ok 3) =
      (UploadResult.badRequest, UploadEffects.mk false false false) ∧
    (upload_pdf "Paper.PDF" (Except.error "boom")).2 = UploadEffects.mk true true true :=
  ⟨upload_guard_and_cleanup.1 "notes.txt" (Except.ok 3) (by decide),
   (upload_guard_and_cleanup.2 "Paper.PDF" (Except.error "boom") (by decide)).1⟩

/-- C9: in the standalone UI, for every question, retriever (vector index),
temperature and retrieved-chunk count, when no model credential is
configured (`GEMINI_API_KEY` absent or empty, both falsy in the source),
`ask_question` returns the fixed "not configured" message and performs no
retrieval and no language-model call. -/
theorem ui_not_configured_short_circuit :
    ∀ (apiKey : Option String) (question : String) (search : String → Nat → List String)
      (temperature : Rat) (max_results : Nat)
      (llmInvoke : String → Rat → Except String String),
      apiKey = none ∨ apiKey = some "" →
      ask_question apiKey question search temperature max_results llmInvoke =
        (notConfiguredMsg, UIEffects.mk false false) := by
  rintro apiKey question search temperature max_results llmInvoke (h | h) <;>
    simp [ask_question, h]

/-- Witness for C9: with no key configured the fixed message is returned
even when a working retriever and model are available. -/
theorem ui_not_configured_short_circuit_witness :
    ask_question none "What is this paper about?" (fun _ _ => ["some chunk"]) 0 10
      (fun _ _ => Except.ok "an answer") = (notConfiguredMsg, UIEffects.mk false false) :=
  ui_not_configured_short_circuit none "What is this paper about?" (fun _ _ => ["some chunk"])
    0 10 (fun _ _ => Except.ok "an answer") (Or.inl rfl)
